import Mathlib

/-!
Verification of the schema-driven validation engine of the
embedded-config-parser repository (src/validator.py, src/parser.py).

Modelling conventions:
* Python dicts that are used as insertion-ordered string-keyed maps
  (config.uart, config.i2c, config.timers, config.spi, the pin-usage map of
  the conflict detector) are embedded as association lists
  List (String ~ value); lookup takes the first matching key, insertion
  appends at the end, which matches dict semantics as long as keys are
  unique (Python dicts cannot hold a duplicate key).
* Python ints are Int (they are unbounded); Python floats that only ever
  carry decimal literals and are compared with <= are embedded as Rat.
* int(pin[2:]) inside the pin-format check is embedded with an explicit
  digit parser (pyInt?).  The two agree on every all-digit string and on
  the empty string; they differ only on exotic strings (embedded
  whitespace, an underscore, a sign) where the Python call either raises
  ValueError (mapped to none) or yields a negative value that the
  subsequent 0 <= pin_num check rejects anyway.
* f-string number formatting with thousands separators (the Python
  text uses a comma format spec) is rendered with plain toString; no claim
  inspects the digit grouping of a message text.
-/

namespace EmbeddedConfig

/-! ## Diagnostic model (validator.py, ValidationLevel / ValidationMessage /
ValidationResult) -/

inductive ValidationLevel where
  | error
  | warning
  | info
deriving DecidableEq, Repr

structure ValidationMessage where
  level : ValidationLevel
  message : String
  location : String := ""
  category : String := ""
  suggestion : String := ""
deriving DecidableEq, Repr

/-- Message constructor mirroring ValidationResult.add_error. -/
def errMsg (message : String) (location : String) (category : String)
    (suggestion : String) : ValidationMessage :=
  { level := .error, message := message, location := location,
    category := category, suggestion := suggestion }

/-- Message constructor mirroring ValidationResult.add_warning. -/
def warnMsg (message : String) (location : String) (category : String)
    (suggestion : String) : ValidationMessage :=
  { level := .warning, message := message, location := location,
    category := category, suggestion := suggestion }

/-- Message constructor mirroring ValidationResult.add_info. -/
def infoMsg (message : String) (location : String) (category : String)
    (suggestion : String) : ValidationMessage :=
  { level := .info, message := message, location := location,
    category := category, suggestion := suggestion }

structure ValidationResult where
  is_valid : Bool := true
  messages : List ValidationMessage := []
deriving DecidableEq, Repr

def ValidationResult.empty : ValidationResult := {}

/-- ValidationResult.add_error: append the message, set is_valid to False. -/
def ValidationResult.add_error (r : ValidationResult) (message : String)
    (location : String) (category : String) (suggestion : String) :
    ValidationResult :=
  { is_valid := false,
    messages := r.messages ++ [errMsg message location category suggestion] }

/-- ValidationResult.add_warning: append the message, is_valid unchanged. -/
def ValidationResult.add_warning (r : ValidationResult) (message : String)
    (location : String) (category : String) (suggestion : String) :
    ValidationResult :=
  { r with
    messages := r.messages ++ [warnMsg message location category suggestion] }

/-- ValidationResult.add_info: append the message, is_valid unchanged. -/
def ValidationResult.add_info (r : ValidationResult) (message : String)
    (location : String) (category : String) (suggestion : String) :
    ValidationResult :=
  { r with
    messages := r.messages ++ [infoMsg message location category suggestion] }

/-- ValidationResult.merge: extend messages with the other result's
messages; if the other result is invalid, become invalid. -/
def ValidationResult.merge (r other : ValidationResult) : ValidationResult :=
  { is_valid := if other.is_valid then r.is_valid else false,
    messages := r.messages ++ other.messages }

/-- Net effect of a run of add_error / add_warning / add_info calls that
appends the list ms: every call appends one message, and is_valid ends up
false exactly when it started false or some appended message is an error
(each add_error sets it false, the other two leave it unchanged). -/
def ValidationResult.addMessages (r : ValidationResult)
    (ms : List ValidationMessage) : ValidationResult :=
  { is_valid := r.is_valid && !(ms.any fun m => m.level == .error),
    messages := r.messages ++ ms }

/-- A fresh ValidationResult (is_valid = True, no messages) after a run of
add_* calls appending ms. -/
def ValidationResult.ofMessages (ms : List ValidationMessage) :
    ValidationResult :=
  ValidationResult.empty.addMessages ms

/-! ## Pin mapping and conflict detection (validator.py, PinMapping /
PinConflictDetector) -/

structure PinMapping where
  pin : String
  usage_type : String
  peripheral : String
  description : String := ""
  config_location : String := ""
deriving DecidableEq, Repr

structure PinConflictDetector where
  pin_mappings : List (String × PinMapping) := []
  conflicts : List (PinMapping × PinMapping) := []
deriving DecidableEq, Repr

/-- Dict lookup self.pin_mappings[pin] (first matching key). -/
def PinConflictDetector.lookup (d : PinConflictDetector) (pin : String) :
    Option PinMapping :=
  (d.pin_mappings.find? fun kv => kv.1 == pin).map (·.2)

/-- PinConflictDetector.add_pin_usage: if the pin is already mapped, append
the pair (existing, mapping) to conflicts and return True, leaving the
stored owner untouched; otherwise store the mapping and return False. -/
def PinConflictDetector.add_pin_usage (d : PinConflictDetector)
    (mapping : PinMapping) : Bool × PinConflictDetector :=
  match d.lookup mapping.pin with
  | some existing =>
      (true, { d with conflicts := d.conflicts ++ [(existing, mapping)] })
  | none =>
      (false,
       { d with pin_mappings := d.pin_mappings ++ [(mapping.pin, mapping)] })

/-- Registering a whole sequence of usages on a fresh detector (the detector
is cleared at the start of every SchemaBasedPinValidator.validate run). -/
def PinConflictDetector.run (ms : List PinMapping) : PinConflictDetector :=
  ms.foldl (fun d m => (d.add_pin_usage m).2) {}

/-! ## Configuration model (parser.py data classes) -/

structure GPIOConfig where
  pin : String
  direction : String
  pull : String := "none"
  speed : String := "medium"
  initial_state : String := "low"
  description : String := ""
deriving DecidableEq, Repr

structure UARTConfig where
  name : String
  enabled : Bool
  baudrate : Int
  data_bits : Int := 8
  stop_bits : Int := 1
  parity : String := "none"
  flow_control : String := "none"
  tx_pin : String := ""
  rx_pin : String := ""
  description : String := ""
deriving DecidableEq, Repr

structure I2CDevice where
  name : String
  address : Int
  device_type : String
  description : String := ""
deriving DecidableEq, Repr

structure I2CConfig where
  name : String
  enabled : Bool
  speed : Int
  scl_pin : String
  sda_pin : String
  pull_up : Bool := true
  description : String := ""
  devices : List I2CDevice := []
deriving DecidableEq, Repr

structure TimerConfig where
  name : String
  enabled : Bool
  prescaler : Int
  period : Int
  mode : String := "periodic"
  auto_reload : Bool := true
  channel : Option Int := none
  duty_cycle : Option Int := none
  output_pin : Option String := none
  description : String := ""
deriving DecidableEq, Repr

structure SPIConfig where
  name : String
  enabled : Bool
  mode : Int
  speed : Int
  data_bits : Int := 8
  bit_order : String := "msb"
  sck_pin : String := ""
  miso_pin : String := ""
  mosi_pin : String := ""
  cs_pins : List String := []
  description : String := ""
deriving DecidableEq, Repr

structure BoardConfig where
  name : String
  mcu : String
  clock_frequency : Int
  voltage : Rat := 33/10
  description : String := ""
deriving DecidableEq, Repr

structure EmbeddedConfigT where
  board : BoardConfig
  gpio : List GPIOConfig := []
  uart : List (String × UARTConfig) := []
  i2c : List (String × I2CConfig) := []
  timers : List (String × TimerConfig) := []
  spi : List (String × SPIConfig) := []
deriving DecidableEq, Repr

/-- The dict returned by EmbeddedConfig.get_enabled_peripheral_count. -/
structure PeripheralCounts where
  uart : Nat
  i2c : Nat
  spi : Nat
  timers : Nat
  gpio : Nat
deriving DecidableEq, Repr

/-- EmbeddedConfig.get_enabled_peripheral_count. -/
def EmbeddedConfigT.get_enabled_peripheral_count (c : EmbeddedConfigT) :
    PeripheralCounts :=
  { uart := (c.uart.filter fun u => u.2.enabled).length,
    i2c := (c.i2c.filter fun i => i.2.enabled).length,
    spi := (c.spi.filter fun s => s.2.enabled).length,
    timers := (c.timers.filter fun t => t.2.enabled).length,
    gpio := c.gpio.length }

/-- Truthiness of the Optional[str] output_pin field: Python treats both
None and the empty string as falsy. -/
def pyTruthy : Option String → Bool
  | none => false
  | some s => s ≠ ""

/-! ## MCU capability records (validator.py, SchemaBasedMCUDatabase)

The database loads JSON schema documents from a directory (file system
input/output, outside the engine) and reduces each to a specs dict.  A
loaded database is embedded extensionally as the lookup function that
find_mcu_specs induces: String to Option MCUSpecs.  The reduction of one
document, _extract_specs_from_schema, is embedded below over a typed form
of the document. -/

structure MCUSpecs where
  gpio_ports : List String
  max_pins_per_port : List (String × Int)
  uart_count : Int
  i2c_count : Int
  spi_count : Int
  timer_count : Int
  max_clock : Int
  min_voltage : Rat
  max_voltage : Rat
  package_type : String
  pin_count : Int
  schema_file : String := ""
deriving DecidableEq, Repr

/-- Typed form of one MCU schema JSON document, with an Option for every
dict key the extraction reads with a .get default.  Nested dicts keep the
source nesting (properties.board.properties). -/
structure GpioPortInfo where
  max : Option Int := none
deriving DecidableEq, Repr

structure PeripheralLimits where
  uart_count : Option Int := none
  i2c_count : Option Int := none
  spi_count : Option Int := none
  timer_count : Option Int := none
deriving DecidableEq, Repr

structure PackageConstraints where
  gpio_ports : Option (List (String × GpioPortInfo)) := none
  peripheral_limits : Option PeripheralLimits := none
deriving DecidableEq, Repr

structure ClockProps where
  maximum : Option Int := none
deriving DecidableEq, Repr

structure VoltageProps where
  minimum : Option Rat := none
  maximum : Option Rat := none
deriving DecidableEq, Repr

structure BoardProps where
  clock_frequency : Option ClockProps := none
  voltage : Option VoltageProps := none
deriving DecidableEq, Repr

structure BoardHolder where
  properties : Option BoardProps := none
deriving DecidableEq, Repr

structure PropertiesHolder where
  board : Option BoardHolder := none
deriving DecidableEq, Repr

structure PackageInfo where
  package_type : Option String := none
  pin_count : Option Int := none
deriving DecidableEq, Repr

structure SchemaDoc where
  mcu_patterns : List String := []
  package_constraints : Option PackageConstraints := none
  properties : Option PropertiesHolder := none
  package_info : Option PackageInfo := none
deriving DecidableEq, Repr

/-- SchemaBasedMCUDatabase._extract_specs_from_schema, happy path: every
absent key is replaced by the .get default at its access site.  The
except-branch of the source (which returns extractFallbackSpecs below) is
unreachable on a well-typed document, since every access is a defaulted
.get. -/
def extract_specs_from_schema (schema : SchemaDoc) : MCUSpecs :=
  let package_constraints := schema.package_constraints.getD {}
  let gpio_ports := package_constraints.gpio_ports.getD []
  let peripheral_limits := package_constraints.peripheral_limits.getD {}
  let board_props :=
    (((schema.properties.getD {}).board.getD {}).properties).getD {}
  let clock_props := board_props.clock_frequency.getD {}
  let voltage_props := board_props.voltage.getD {}
  let package_info := schema.package_info.getD {}
  { gpio_ports := gpio_ports.map Prod.fst,
    max_pins_per_port :=
      gpio_ports.map fun pi => (pi.1, pi.2.max.getD 15 + 1),
    uart_count := peripheral_limits.uart_count.getD 6,
    i2c_count := peripheral_limits.i2c_count.getD 3,
    spi_count := peripheral_limits.spi_count.getD 6,
    timer_count := peripheral_limits.timer_count.getD 14,
    max_clock := clock_props.maximum.getD 200000000,
    min_voltage := voltage_props.minimum.getD (18/10),
    max_voltage := voltage_props.maximum.getD (55/10),
    package_type := package_info.package_type.getD "Unknown",
    pin_count := package_info.pin_count.getD 0 }

/-- The minimal fallback specs dict built by the except branch of
_extract_specs_from_schema (only reached when an access inside extraction
raises, for example a gpio_ports value that is not a dict). -/
def extractFallbackSpecs : MCUSpecs :=
  { max_clock := 200000000,
    min_voltage := 18/10,
    max_voltage := 55/10,
    gpio_ports := ["A", "B", "C", "D", "E"],
    max_pins_per_port := [("A", 16), ("B", 16), ("C", 16), ("D", 16), ("E", 16)],
    uart_count := 6,
    i2c_count := 3,
    spi_count := 6,
    timer_count := 14,
    package_type := "Unknown",
    pin_count := 0 }

/-- Dict .get with a default on the max_pins_per_port dict. -/
def lookupPortMax (l : List (String × Int)) (k : String) (dflt : Int) : Int :=
  match l.find? fun kv => kv.1 == k with
  | some kv => kv.2
  | none => dflt

/-! ## Schema-based pin validation (validator.py, SchemaBasedPinValidator) -/

/-- int(pin[2:]) on the digit strings that can pass the later range check:
a nonempty all-digit suffix parses to its value, anything else raises
ValueError in the source and yields none here (a sign or embedded space
would either raise or produce a negative value that the 0 <= pin_num check
rejects anyway). -/
def pyDigits? : List Char → Nat → Option Nat
  | [], acc => some acc
  | c :: rest, acc =>
      if 48 ≤ c.toNat ∧ c.toNat ≤ 57 then
        pyDigits? rest (acc * 10 + (c.toNat - 48))
      else none

def pyInt? (cs : List Char) : Option Nat :=
  match cs with
  | [] => none
  | _ => pyDigits? cs 0

/-- SchemaBasedPinValidator._validate_pin_against_schema. -/
def validatePinAgainstSchema (pin : String) (mcu_specs : MCUSpecs) : Bool :=
  match pin.data with
  | p0 :: p1 :: rest =>
      if p0 != 'P' then false
      else
        match pyInt? rest with
        | none => false
        | some pin_num =>
            let port := String.mk [p1]
            if !(mcu_specs.gpio_ports.contains port) then false
            else
              let max_pin := lookupPortMax mcu_specs.max_pins_per_port port 16
              decide (0 ≤ (pin_num : Int) ∧ (pin_num : Int) < max_pin)
  | _ => false

/-- The suggestion text shared by all pin_format errors. -/
def availablePortsStr (mcu_specs : MCUSpecs) : String :=
  String.intercalate ", " mcu_specs.gpio_ports

/-- The mutable state threaded through the collectors of one
SchemaBasedPinValidator.validate run: the result messages accumulated so
far and the conflict detector. -/
structure CollectState where
  msgs : List ValidationMessage := []
  detector : PinConflictDetector := {}
deriving DecidableEq, Repr

def CollectState.addError (st : CollectState) (message : String)
    (location : String) (category : String) (suggestion : String) :
    CollectState :=
  { st with msgs := st.msgs ++ [errMsg message location category suggestion] }

def CollectState.registerPin (st : CollectState) (m : PinMapping) :
    CollectState :=
  { st with detector := (st.detector.add_pin_usage m).2 }

/-- Loop body of _collect_gpio_pins (the index comes from enumerate). -/
def collectGpioPin (mcu_specs : MCUSpecs) (st : CollectState)
    (ig : Nat × GPIOConfig) : CollectState :=
  if !(validatePinAgainstSchema ig.2.pin mcu_specs) then
    st.addError ("Invalid GPIO pin: " ++ ig.2.pin)
      ("gpio[" ++ toString ig.1 ++ "]") "pin_format"
      ("Use pins from available ports: " ++ availablePortsStr mcu_specs)
  else
    st.registerPin
      { pin := ig.2.pin, usage_type := "GPIO",
        peripheral := "GPIO (" ++ ig.2.direction ++ ")",
        description := ig.2.description,
        config_location := "gpio[" ++ toString ig.1 ++ "]" }

def collect_gpio_pins (mcu_specs : MCUSpecs) (config : EmbeddedConfigT)
    (st : CollectState) : CollectState :=
  config.gpio.enum.foldl (collectGpioPin mcu_specs) st

/-- Inner loop body of _collect_uart_pins over [(TX, tx_pin), (RX, rx_pin)]. -/
def collectUartPin (mcu_specs : MCUSpecs) (uart_name : String)
    (uart : UARTConfig) (st : CollectState) (tp : String × String) :
    CollectState :=
  if tp.2 == "" then st
  else if !(validatePinAgainstSchema tp.2 mcu_specs) then
    st.addError ("Invalid UART " ++ uart_name ++ " " ++ tp.1 ++ " pin: " ++ tp.2)
      ("uart." ++ uart_name) "pin_format"
      ("Use pins from available ports: " ++ availablePortsStr mcu_specs)
  else
    st.registerPin
      { pin := tp.2, usage_type := "UART",
        peripheral := "UART " ++ uart_name ++ " " ++ tp.1,
        description := uart.description,
        config_location := "uart." ++ uart_name }

def collectUartEntry (mcu_specs : MCUSpecs) (st : CollectState)
    (e : String × UARTConfig) : CollectState :=
  if !e.2.enabled then st
  else
    [("TX", e.2.tx_pin), ("RX", e.2.rx_pin)].foldl
      (collectUartPin mcu_specs e.1 e.2) st

def collect_uart_pins (mcu_specs : MCUSpecs) (config : EmbeddedConfigT)
    (st : CollectState) : CollectState :=
  config.uart.foldl (collectUartEntry mcu_specs) st

/-- Inner loop body of _collect_i2c_pins over [(SCL, scl), (SDA, sda)]
(no empty-pin skip in the source). -/
def collectI2CPin (mcu_specs : MCUSpecs) (i2c_name : String)
    (i2c : I2CConfig) (st : CollectState) (tp : String × String) :
    CollectState :=
  if !(validatePinAgainstSchema tp.2 mcu_specs) then
    st.addError ("Invalid I2C " ++ i2c_name ++ " " ++ tp.1 ++ " pin: " ++ tp.2)
      ("i2c." ++ i2c_name) "pin_format"
      ("Use pins from available ports: " ++ availablePortsStr mcu_specs)
  else
    st.registerPin
      { pin := tp.2, usage_type := "I2C",
        peripheral := "I2C " ++ i2c_name ++ " " ++ tp.1,
        description := i2c.description,
        config_location := "i2c." ++ i2c_name }

def collectI2CEntry (mcu_specs : MCUSpecs) (st : CollectState)
    (e : String × I2CConfig) : CollectState :=
  if !e.2.enabled then st
  else
    [("SCL", e.2.scl_pin), ("SDA", e.2.sda_pin)].foldl
      (collectI2CPin mcu_specs e.1 e.2) st

def collect_i2c_pins (mcu_specs : MCUSpecs) (config : EmbeddedConfigT)
    (st : CollectState) : CollectState :=
  config.i2c.foldl (collectI2CEntry mcu_specs) st

/-- Inner loop body of _collect_spi_pins (with the empty-pin skip). -/
def collectSpiPin (mcu_specs : MCUSpecs) (spi_name : String)
    (spi : SPIConfig) (st : CollectState) (tp : String × String) :
    CollectState :=
  if tp.2 == "" then st
  else if !(validatePinAgainstSchema tp.2 mcu_specs) then
    st.addError ("Invalid SPI " ++ spi_name ++ " " ++ tp.1 ++ " pin: " ++ tp.2)
      ("spi." ++ spi_name) "pin_format"
      ("Use pins from available ports: " ++ availablePortsStr mcu_specs)
  else
    st.registerPin
      { pin := tp.2, usage_type := "SPI",
        peripheral := "SPI " ++ spi_name ++ " " ++ tp.1,
        description := spi.description,
        config_location := "spi." ++ spi_name }

def collectSpiEntry (mcu_specs : MCUSpecs) (st : CollectState)
    (e : String × SPIConfig) : CollectState :=
  if !e.2.enabled then st
  else
    let spi_pins :=
      [("SCK", e.2.sck_pin), ("MISO", e.2.miso_pin), ("MOSI", e.2.mosi_pin)]
        ++ e.2.cs_pins.enum.map fun ic => ("CS" ++ toString ic.1, ic.2)
    spi_pins.foldl (collectSpiPin mcu_specs e.1 e.2) st

def collect_spi_pins (mcu_specs : MCUSpecs) (config : EmbeddedConfigT)
    (st : CollectState) : CollectState :=
  config.spi.foldl (collectSpiEntry mcu_specs) st

/-- Loop body of _collect_timer_pins. -/
def collectTimerEntry (mcu_specs : MCUSpecs) (st : CollectState)
    (e : String × TimerConfig) : CollectState :=
  if !e.2.enabled || e.2.mode != "pwm" || !(pyTruthy e.2.output_pin) then st
  else
    if !(validatePinAgainstSchema (e.2.output_pin.getD "") mcu_specs) then
      st.addError ("Invalid Timer " ++ e.1 ++ " PWM pin: "
          ++ e.2.output_pin.getD "")
        ("timers." ++ e.1) "pin_format"
        ("Use pins from available ports: " ++ availablePortsStr mcu_specs)
    else
      st.registerPin
        { pin := e.2.output_pin.getD "", usage_type := "Timer PWM",
          peripheral := "Timer " ++ e.1 ++ " PWM",
          description := e.2.description,
          config_location := "timers." ++ e.1 }

def collect_timer_pins (mcu_specs : MCUSpecs) (config : EmbeddedConfigT)
    (st : CollectState) : CollectState :=
  config.timers.foldl (collectTimerEntry mcu_specs) st

/-- The error emitted per conflict pair at the end of
SchemaBasedPinValidator.validate. -/
def conflictMsg (c : PinMapping × PinMapping) : ValidationMessage :=
  errMsg
    ("Pin " ++ c.1.pin ++ " used by both " ++ c.1.peripheral ++ " and "
      ++ c.2.peripheral)
    "pin_conflicts" "pin_conflict"
    ("Use different pins for " ++ c.1.peripheral ++ " and " ++ c.2.peripheral)

/-- The collector pipeline of SchemaBasedPinValidator.validate, in source
order, starting from the empty CollectState (the detector is cleared at the
start of every run). -/
def pinCollectAll (mcu_specs : MCUSpecs) (config : EmbeddedConfigT) :
    CollectState :=
  collect_timer_pins mcu_specs config
    (collect_spi_pins mcu_specs config
      (collect_i2c_pins mcu_specs config
        (collect_uart_pins mcu_specs config
          (collect_gpio_pins mcu_specs config {}))))

/-- SchemaBasedPinValidator.validate. -/
def SchemaBasedPinValidator.validate (find : String → Option MCUSpecs)
    (config : EmbeddedConfigT) : ValidationResult :=
  match find config.board.mcu with
  | none =>
      .ofMessages
        [errMsg ("No schema found for MCU: " ++ config.board.mcu)
          "board.mcu" "schema_missing"
          "Add appropriate schema file for this MCU"]
  | some mcu_specs =>
      let st := pinCollectAll mcu_specs config
      .ofMessages (st.msgs ++ st.detector.conflicts.map conflictMsg)

/-! ## Schema-based MCU validation (validator.py, SchemaBasedMCUValidator) -/

/-- SchemaBasedMCUValidator.validate, as the ordered list of messages its
add_error / add_warning / add_info calls append to the fresh result. -/
def SchemaBasedMCUValidator.validateMsgs (find : String → Option MCUSpecs)
    (config : EmbeddedConfigT) : List ValidationMessage :=
  match find config.board.mcu with
  | none =>
      [warnMsg ("No schema found for MCU: " ++ config.board.mcu)
        "board.mcu" "schema_missing"
        "Add appropriate schema file for this MCU"]
  | some mcu_specs =>
      (if config.board.clock_frequency > mcu_specs.max_clock then
        [errMsg
          ("Clock frequency " ++ toString config.board.clock_frequency
            ++ "Hz exceeds maximum " ++ toString mcu_specs.max_clock ++ "Hz")
          "board.clock_frequency" "mcu_limits"
          ("Reduce clock frequency to max " ++ toString mcu_specs.max_clock
            ++ "Hz")]
      else [])
      ++ (if !(mcu_specs.min_voltage ≤ config.board.voltage
              ∧ config.board.voltage ≤ mcu_specs.max_voltage) then
        [errMsg
          ("Voltage " ++ toString config.board.voltage
            ++ "V outside valid range " ++ toString mcu_specs.min_voltage
            ++ "-" ++ toString mcu_specs.max_voltage ++ "V")
          "board.voltage" "mcu_limits" ""]
      else [])
      ++ (let peripheral_counts := config.get_enabled_peripheral_count
        (if (peripheral_counts.uart : Int) > mcu_specs.uart_count then
          [errMsg
            ("Too many UART peripherals enabled: "
              ++ toString peripheral_counts.uart ++ " > "
              ++ toString mcu_specs.uart_count)
            "uart" "mcu_limits" ""]
        else [])
        ++ (if (peripheral_counts.i2c : Int) > mcu_specs.i2c_count then
          [errMsg
            ("Too many I2C peripherals enabled: "
              ++ toString peripheral_counts.i2c ++ " > "
              ++ toString mcu_specs.i2c_count)
            "i2c" "mcu_limits" ""]
        else [])
        ++ (if (peripheral_counts.spi : Int) > mcu_specs.spi_count then
          [errMsg
            ("Too many SPI peripherals enabled: "
              ++ toString peripheral_counts.spi ++ " > "
              ++ toString mcu_specs.spi_count)
            "spi" "mcu_limits" ""]
        else []))
      ++ [infoMsg
          ("Detected MCU package: " ++ mcu_specs.package_type ++ " ("
            ++ toString mcu_specs.pin_count ++ " pins)")
          "" "mcu_detection" ""]

def SchemaBasedMCUValidator.validate (find : String → Option MCUSpecs)
    (config : EmbeddedConfigT) : ValidationResult :=
  .ofMessages (SchemaBasedMCUValidator.validateMsgs find config)

/-! ## Peripheral business rules (validator.py, PeripheralValidator) -/

/-- Python format spec 02X on an int: uppercase hex digits of the absolute
value, zero-padded so the whole rendering (sign included) is at least two
characters wide. -/
def pyHexUpper (n : Nat) : String :=
  String.mk ((Nat.toDigits 16 n).map Char.toUpper)

def pyHex02 (n : Int) : String :=
  if n < 0 then "-" ++ pyHexUpper n.natAbs
  else if n.natAbs < 16 then "0" ++ pyHexUpper n.natAbs
  else pyHexUpper n.natAbs

def i2cConflictMsg (i2c_name : String) (address : Int) : ValidationMessage :=
  errMsg
    ("I2C address conflict on " ++ i2c_name ++ ": 0x" ++ pyHex02 address
      ++ " used multiple times")
    ("i2c." ++ i2c_name) "i2c_conflict"
    "Use unique I2C addresses for each device"

def i2cAddressMsg (i2c_name : String) (device : I2CDevice) :
    ValidationMessage :=
  errMsg
    ("Invalid I2C address on " ++ i2c_name ++ ": 0x" ++ pyHex02 device.address
      ++ " (must be 0x08-0x77)")
    ("i2c." ++ i2c_name ++ "." ++ device.name) "i2c_address" ""

/-- Device loop of _validate_i2c_addresses for one enabled bus: the
accumulator is the addresses set (only membership is consulted, so it is
carried as a duplicate-free list).  A device whose address was already seen
gets a conflict error; the address is then added to the set; a device whose
address is outside the 0x08 to 0x77 window gets a range error. -/
def i2cDeviceLoop (i2c_name : String) :
    List I2CDevice → List Int → List ValidationMessage
  | [], _ => []
  | device :: rest, addresses =>
      let dup := addresses.contains device.address
      (if dup then [i2cConflictMsg i2c_name device.address] else [])
        ++ (if device.address < 0x08 ∨ device.address > 0x77 then
              [i2cAddressMsg i2c_name device]
            else [])
        ++ i2cDeviceLoop i2c_name rest
            (if dup then addresses else addresses ++ [device.address])

/-- PeripheralValidator._validate_i2c_addresses as the messages it appends. -/
def validate_i2c_addresses (config : EmbeddedConfigT) :
    List ValidationMessage :=
  config.i2c.flatMap fun e =>
    if e.2.enabled then i2cDeviceLoop e.1 e.2.devices [] else []

def timerDutyMsg (timer_name : String) : ValidationMessage :=
  errMsg ("Timer " ++ timer_name ++ ": PWM mode requires duty_cycle between 0-100")
    ("timers." ++ timer_name) "timer_config" ""

def timerOutputPinMsg (timer_name : String) : ValidationMessage :=
  errMsg ("Timer " ++ timer_name ++ ": PWM mode requires output_pin")
    ("timers." ++ timer_name) "timer_config" ""

def timerChannelMsg (timer_name : String) : ValidationMessage :=
  errMsg ("Timer " ++ timer_name ++ ": Invalid PWM channel (must be 1-4)")
    ("timers." ++ timer_name) "timer_config" ""

def timerPrescalerMsg (timer_name : String) (v : Int) : ValidationMessage :=
  errMsg
    ("Timer " ++ timer_name ++ ": Invalid prescaler value " ++ toString v
      ++ " (1-65536)")
    ("timers." ++ timer_name) "timer_config" ""

def timerPeriodMsg (timer_name : String) (v : Int) : ValidationMessage :=
  errMsg
    ("Timer " ++ timer_name ++ ": Invalid period value " ++ toString v
      ++ " (1-65536)")
    ("timers." ++ timer_name) "timer_config" ""

/-- timer.duty_cycle is None or not (0 <= timer.duty_cycle <= 100). -/
def dutyCycleInvalid (timer : TimerConfig) : Bool :=
  match timer.duty_cycle with
  | none => true
  | some d => if 0 ≤ d ∧ d ≤ 100 then false else true

/-- timer.channel is None or not (1 <= timer.channel <= 4). -/
def channelInvalid (timer : TimerConfig) : Bool :=
  match timer.channel with
  | none => true
  | some c => if 1 ≤ c ∧ c ≤ 4 then false else true

/-- Body of the _validate_timer_configs loop for one timers entry. -/
def timerEntryMsgs (timer_name : String) (timer : TimerConfig) :
    List ValidationMessage :=
  if !timer.enabled then []
  else
    (if timer.mode == "pwm" then
      (if dutyCycleInvalid timer then [timerDutyMsg timer_name] else [])
        ++ (if !(pyTruthy timer.output_pin) then [timerOutputPinMsg timer_name]
            else [])
        ++ (if channelInvalid timer then [timerChannelMsg timer_name] else [])
    else [])
    ++ (if timer.prescaler ≤ 0 ∨ timer.prescaler > 65536 then
          [timerPrescalerMsg timer_name timer.prescaler]
        else [])
    ++ (if timer.period ≤ 0 ∨ timer.period > 65536 then
          [timerPeriodMsg timer_name timer.period]
        else [])

/-- PeripheralValidator._validate_timer_configs as the messages it appends. -/
def validate_timer_configs (config : EmbeddedConfigT) :
    List ValidationMessage :=
  config.timers.flatMap fun e => timerEntryMsgs e.1 e.2

/-- Body of the _validate_spi_configs loop for one spi entry. -/
def spiEntryMsgs (spi_name : String) (spi : SPIConfig) :
    List ValidationMessage :=
  if !spi.enabled then []
  else
    (if spi.sck_pin == "" then
      [errMsg ("SPI " ++ spi_name ++ ": SCK pin is required")
        ("spi." ++ spi_name) "spi_config" ""]
    else [])
    ++ (if spi.mosi_pin == "" then
          [errMsg ("SPI " ++ spi_name ++ ": MOSI pin is required")
            ("spi." ++ spi_name) "spi_config" ""]
        else [])
    ++ (if spi.cs_pins.isEmpty then
          [warnMsg ("SPI " ++ spi_name ++ ": No CS pins configured")
            ("spi." ++ spi_name) "spi_config"
            "Add CS pins for device selection"]
        else [])

/-- PeripheralValidator._validate_spi_configs as the messages it appends. -/
def validate_spi_configs (config : EmbeddedConfigT) :
    List ValidationMessage :=
  config.spi.flatMap fun e => spiEntryMsgs e.1 e.2

/-- Body of the _validate_uart_configs loop for one uart entry. -/
def uartEntryMsgs (uart_name : String) (uart : UARTConfig) :
    List ValidationMessage :=
  if !uart.enabled then []
  else if uart.tx_pin == "" && uart.rx_pin == "" then
    [warnMsg ("UART " ++ uart_name ++ ": No TX or RX pins configured")
      ("uart." ++ uart_name) "uart_config"
      "Configure at least TX or RX pin"]
  else []

/-- PeripheralValidator._validate_uart_configs as the messages it appends. -/
def validate_uart_configs (config : EmbeddedConfigT) :
    List ValidationMessage :=
  config.uart.flatMap fun e => uartEntryMsgs e.1 e.2

/-- PeripheralValidator.validate: the four sub-checks append to one fresh
result in the source order i2c, timers, spi, uart. -/
def PeripheralValidator.validate (config : EmbeddedConfigT) :
    ValidationResult :=
  .ofMessages
    (validate_i2c_addresses config
      ++ validate_timer_configs config
      ++ validate_spi_configs config
      ++ validate_uart_configs config)

/-! ## Structural schema checker (validator.py, SchemaValidator)

The schema-conformance step itself (jsonschema.validate on documents read
from the file system) is external to the engine.  What belongs to the core
is the conversion of the configuration into a plain dict (dataclasses.asdict,
a recursive deep copy) and the in-place renaming of the device_type key
to type inside that copy. -/

/-- The dict produced by asdict for one I2CDevice, extended with the type
key that the transform may add.  pop removes device_type; the original
asdict output always carries device_type and never carries type. -/
structure DeviceDict where
  name : String
  address : Int
  device_type : Option String
  typeKey : Option String
  description : String
deriving DecidableEq, Repr

structure I2CDict where
  name : String
  enabled : Bool
  speed : Int
  scl_pin : String
  sda_pin : String
  pull_up : Bool
  description : String
  devices : List DeviceDict
deriving DecidableEq, Repr

/-- The dict produced by dataclasses.asdict(config).  Sections the
device_type transform never touches keep their structured form. -/
structure ConfigDict where
  board : BoardConfig
  gpio : List GPIOConfig
  uart : List (String × UARTConfig)
  i2c : List (String × I2CDict)
  timers : List (String × TimerConfig)
  spi : List (String × SPIConfig)
deriving DecidableEq, Repr

def deviceAsDict (d : I2CDevice) : DeviceDict :=
  { name := d.name, address := d.address, device_type := some d.device_type,
    typeKey := none, description := d.description }

def i2cAsDict (c : I2CConfig) : I2CDict :=
  { name := c.name, enabled := c.enabled, speed := c.speed,
    scl_pin := c.scl_pin, sda_pin := c.sda_pin, pull_up := c.pull_up,
    description := c.description, devices := c.devices.map deviceAsDict }

/-- dataclasses.asdict: a recursive conversion that deep-copies, so later
writes to the dict never reach the configuration object. -/
def asdict (config : EmbeddedConfigT) : ConfigDict :=
  { board := config.board, gpio := config.gpio, uart := config.uart,
    i2c := config.i2c.map fun e => (e.1, i2cAsDict e.2),
    timers := config.timers, spi := config.spi }

/-- device.pop plus assignment: if device_type is present, move its value
to the type key. -/
def transformDevice (d : DeviceDict) : DeviceDict :=
  match d.device_type with
  | some v => { d with typeKey := some v, device_type := none }
  | none => d

/-- The transform loop of SchemaValidator.validate over every i2c device
dict of the converted copy. -/
def transformDeviceTypes (cd : ConfigDict) : ConfigDict :=
  { cd with
    i2c := cd.i2c.map fun e =>
      (e.1, { e.2 with devices := e.2.devices.map transformDevice }) }

/-- SchemaValidator.validate.  The two helper passes
(_validate_mcu_schema and _validate_peripheral_schemas) read schema files
and run the jsonschema library on the transformed dict; they are external
input/output, embedded as one abstract function sv on that dict, which may
also raise (Except.error). -/
def SchemaValidator.validate
    (sv : ConfigDict → Except String ValidationResult)
    (config : EmbeddedConfigT) : Except String ValidationResult :=
  let config_dict := asdict config
  let config_dict := transformDeviceTypes config_dict
  sv config_dict

/-! ## Orchestrator (validator.py, ConfigValidator) -/

def validatorErrorMsg (validator_name : String) (e : String) :
    ValidationMessage :=
  errMsg ("Validation error in " ++ validator_name ++ ": " ++ e)
    "" "validator_error" ""

/-- The try/except loop of ConfigValidator.validate: each checker either
returns a result, which is merged, or raises, which is caught and turned
into a single validator_error message naming the checker; then the loop
continues. -/
def runCheckers :
    ValidationResult → List (String × Except String ValidationResult) →
    ValidationResult
  | final_result, [] => final_result
  | final_result, (_, .ok result) :: rest =>
      runCheckers (final_result.merge result) rest
  | final_result, (validator_name, .error e) :: rest =>
      runCheckers
        (final_result.add_error
          ("Validation error in " ++ validator_name ++ ": " ++ e)
          "" "validator_error" "")
        rest

/-- ConfigValidator.validate, with the configuration threaded through as
explicit state.  The three in-repository checkers are total translated
functions, so they enter the loop as Except.ok; the structural schema
checker keeps its external fallible part sv.  No stage writes to the
configuration (the schema checker works on the asdict copy), so the state
out is the state in. -/
def ConfigValidator.validateWithState (find : String → Option MCUSpecs)
    (sv : ConfigDict → Except String ValidationResult)
    (config : EmbeddedConfigT) : ValidationResult × EmbeddedConfigT :=
  (runCheckers {}
    [("Schema-Based Pin Validation",
       .ok (SchemaBasedPinValidator.validate find config)),
     ("Schema-Based MCU Validation",
       .ok (SchemaBasedMCUValidator.validate find config)),
     ("Peripheral Validation", .ok (PeripheralValidator.validate config)),
     ("JSON Schema Validation", SchemaValidator.validate sv config)],
   config)

def ConfigValidator.validate (find : String → Option MCUSpecs)
    (sv : ConfigDict → Except String ValidationResult)
    (config : EmbeddedConfigT) : ValidationResult :=
  (ConfigValidator.validateWithState find sv config).1

/-! ## Derived notions used by the claim statements -/

/-- First claimant of a pin among a sequence of registrations. -/
def firstClaimant (ms : List PinMapping) (p : String) : Option PinMapping :=
  ms.find? fun m => m.pin == p

/-- Invariant tying a detector state to the sequence of registrations that
produced it: the stored owner of every pin is the first registered mapping
with that pin, and every recorded conflict pair names that first claimant
as its existing component. -/
def DetectorInv (processed : List PinMapping) (d : PinConflictDetector) :
    Prop :=
  (∀ p : String, d.lookup p = firstClaimant processed p) ∧
  (∀ e n : PinMapping, (e, n) ∈ d.conflicts →
    firstClaimant processed n.pin = some e)

/-- Number of devices that share their address with an earlier device of
the same bus, continuing from a set of already-seen addresses; this is what
the duplicate-address loop of _validate_i2c_addresses counts. -/
def dupOccurrences : List I2CDevice → List Int → Nat
  | [], _ => 0
  | device :: rest, addresses =>
      (if addresses.contains device.address then 1 else 0)
        + dupOccurrences rest
            (if addresses.contains device.address then addresses
             else addresses ++ [device.address])

/-- An I2C device address outside the valid window 0x08 to 0x77. -/
def addressOutOfRange (device : I2CDevice) : Bool :=
  decide (device.address < 0x08 ∨ device.address > 0x77)

/-- Messages contributed by the checkers that ran without raising, in the
orchestration loop. -/
def okMsgs (p : String × Except String ValidationResult) :
    List ValidationMessage :=
  match p.2 with
  | .ok r => r.messages
  | .error _ => []

/-- Category test for the orchestrator-generated checker-failure errors. -/
def isValidatorError (m : ValidationMessage) : Bool :=
  m.category == "validator_error"

/-- A collector step only ever extends the conflict list and never removes
a pin from the usage map. -/
def StepMono {γ : Type} (f : CollectState → γ → CollectState) : Prop :=
  ∀ (st : CollectState) (x : γ),
    (∃ t, (f st x).detector.conflicts = st.detector.conflicts ++ t)
    ∧ (∀ p, (st.detector.lookup p).isSome = true →
        ((f st x).detector.lookup p).isSome = true)

/-! ### Concrete inputs for witnesses and counterexamples -/

/-- A pin mapping as a GPIO collector would register it. -/
def gpioPA0 : PinMapping :=
  { pin := "PA0", usage_type := "GPIO", peripheral := "GPIO (output)" }

/-- A second mapping claiming the same pin. -/
def uartTxPA0 : PinMapping :=
  { pin := "PA0", usage_type := "UART", peripheral := "UART uart1 TX" }

/-- A schema document carrying none of the constraint fields. -/
def emptySchemaDoc : SchemaDoc := {}

/-- Capability specs for the sample MCU of the examples, with every limit
generous except where a test narrows it. -/
def sampleSpecs : MCUSpecs :=
  { gpio_ports := ["A", "B", "C", "D", "E"],
    max_pins_per_port := [("A", 16), ("B", 16), ("C", 16), ("D", 16), ("E", 16)],
    uart_count := 6, i2c_count := 3, spi_count := 6, timer_count := 14,
    max_clock := 200000000, min_voltage := 1, max_voltage := 6,
    package_type := "LQFP100", pin_count := 100 }

/-- The same capability record with a timer instance limit of zero. -/
def noTimerSpecs : MCUSpecs := { sampleSpecs with timer_count := 0 }

/-- A capability lookup function with exactly one known MCU. -/
def sampleFind (specs : MCUSpecs) : String → Option MCUSpecs :=
  fun mcu_type => if mcu_type == "stm32f407vgt6" then some specs else none

/-- A board on the known MCU, inside every board-level limit. -/
def sampleBoard : BoardConfig :=
  { name := "test", mcu := "stm32f407vgt6", clock_frequency := 168000000,
    voltage := 3 }

/-- One enabled timer in periodic mode with legal prescaler and period. -/
def periodicTimer : TimerConfig :=
  { name := "tim1", enabled := true, prescaler := 1, period := 1000 }

/-- Counterexample configuration for claim C1: one enabled timer while the
capability record allows zero timers; everything else within limits. -/
def cfgTimerOverflow : EmbeddedConfigT :=
  { board := sampleBoard, timers := [("tim1", periodicTimer)] }

/-- A PWM timer with the given duty cycle. -/
def pwmTimer (duty : Option Int) : TimerConfig :=
  { name := "tim2", enabled := true, prescaler := 1, period := 1000,
    mode := "pwm", channel := some 1, duty_cycle := duty,
    output_pin := some "PA8" }

/-- Configuration with one enabled PWM timer of the given duty cycle. -/
def cfgPwm (duty : Option Int) : EmbeddedConfigT :=
  { board := sampleBoard, timers := [("tim2", pwmTimer duty)] }

/-- An I2C device with a name and an address. -/
def mkDevice (name : String) (address : Int) : I2CDevice :=
  { name := name, address := address, device_type := "sensor" }

/-- Counterexample bus for claim C3: three devices sharing address 0x10. -/
def tripleBus : I2CConfig :=
  { name := "i2c1", enabled := true, speed := 100000, scl_pin := "PB6",
    sda_pin := "PB7",
    devices := [mkDevice "d1" 0x10, mkDevice "d2" 0x10, mkDevice "d3" 0x10] }

/-- Configuration holding only the triple-duplicate bus. -/
def cfgTripleBus : EmbeddedConfigT :=
  { board := sampleBoard, i2c := [("i2c1", tripleBus)] }

/-- A UART whose TX and RX roles name the same valid pin (claim C10). -/
def uartSamePin : UARTConfig :=
  { name := "uart1", enabled := true, baudrate := 115200,
    tx_pin := "PA9", rx_pin := "PA9" }

/-- Configuration with only that UART (claim C10 witness). -/
def cfgUartSamePin : EmbeddedConfigT :=
  { board := sampleBoard, uart := [("uart1", uartSamePin)] }

/-- A configuration whose MCU matches no capability record. -/
def cfgUnknownMcu : EmbeddedConfigT :=
  { board := { sampleBoard with mcu := "unknown-chip" } }

/-- Two diagnostic results used by witnesses. -/
def resultA : ValidationResult :=
  ValidationResult.ofMessages [infoMsg "a" "" "note" ""]

def resultErrB : ValidationResult :=
  ValidationResult.ofMessages [errMsg "b" "" "some_check" ""]

/-! # Theorems -/

section Theorems

/-- Bridge between the boolean equality test on pins and propositional
equality of strings. -/
theorem pin_beq_iff (m : PinMapping) (p : String) :
    (m.pin == p) = true ↔ m.pin = p := by
  simp

/-- DetectorInv holds of the empty detector and empty history. -/
theorem detectorInv_nil : DetectorInv [] {} := by
  constructor
  · intro p
    rfl
  · intro e n h
    simp [PinConflictDetector.conflicts] at h

/-- One registration preserves DetectorInv, extending the history. -/
theorem detectorInv_step {processed : List PinMapping}
    {d : PinConflictDetector} (h : DetectorInv processed d)
    (m : PinMapping) :
    DetectorInv (processed ++ [m]) (d.add_pin_usage m).2 := by
  obtain ⟨h1, h2⟩ := h
  cases hl : d.lookup m.pin with
  | some existing =>
    have hadd : d.add_pin_usage m
        = (true, { d with conflicts := d.conflicts ++ [(existing, m)] }) := by
      unfold PinConflictDetector.add_pin_usage
      rw [hl]
    have hfc : firstClaimant processed m.pin = some existing := by
      rw [← h1]; exact hl
    rw [hadd]
    constructor
    · intro p
      have hlp : PinConflictDetector.lookup
          { d with conflicts := d.conflicts ++ [(existing, m)] } p
          = d.lookup p := rfl
      rw [hlp, h1 p]
      unfold firstClaimant
      rw [List.find?_append]
      cases hp : processed.find? fun mm => mm.pin == p with
      | some x => rfl
      | none =>
        cases hmp : (m.pin == p) with
        | true =>
          exfalso
          have hpe : m.pin = p := by simpa using hmp
          rw [← hpe] at hp
          unfold firstClaimant at hfc
          rw [hfc] at hp
          cases hp
        | false =>
          simp [List.find?_cons, hmp, Option.or]
    · intro e n hmem
      have hmem2 : (e, n) ∈ d.conflicts ++ [(existing, m)] := hmem
      rcases List.mem_append.mp hmem2 with holdm | hnew
      · have hfst := h2 e n holdm
        unfold firstClaimant at hfst ⊢
        rw [List.find?_append, hfst]
        rfl
      · have hpair : e = existing ∧ n = m := by
          simpa [Prod.ext_iff] using hnew
        obtain ⟨he, hn⟩ := hpair
        subst he; subst hn
        unfold firstClaimant at hfc ⊢
        rw [List.find?_append, hfc]
        rfl
  | none =>
    have hadd : d.add_pin_usage m
        = (false,
            { d with pin_mappings := d.pin_mappings ++ [(m.pin, m)] }) := by
      unfold PinConflictDetector.add_pin_usage
      rw [hl]
    have hfc : firstClaimant processed m.pin = none := by
      rw [← h1]; exact hl
    rw [hadd]
    constructor
    · intro p
      show ((d.pin_mappings ++ [(m.pin, m)]).find? fun kv =>
          kv.1 == p).map (·.2) = firstClaimant (processed ++ [m]) p
      rw [List.find?_append]
      unfold firstClaimant
      rw [List.find?_append]
      have holdp := h1 p
      unfold PinConflictDetector.lookup firstClaimant at holdp
      cases hq : d.pin_mappings.find? fun kv => kv.1 == p with
      | some kv =>
        rw [hq] at holdp
        rw [← holdp]
        rfl
      | none =>
        rw [hq] at holdp
        rw [← holdp]
        cases hmp : (m.pin == p) with
        | true => simp [List.find?_cons, hmp, Option.or]
        | false => simp [List.find?_cons, hmp, Option.or]
    · intro e n hmem
      have hmem2 : (e, n) ∈ d.conflicts := hmem
      have hfst := h2 e n hmem2
      unfold firstClaimant at hfst ⊢
      rw [List.find?_append, hfst]
      rfl

/-- Folding a sequence of registrations preserves DetectorInv. -/
theorem detectorInv_foldl (ms : List PinMapping) :
    ∀ (processed : List PinMapping) (d : PinConflictDetector),
      DetectorInv processed d →
      DetectorInv (processed ++ ms)
        (ms.foldl (fun d m => (d.add_pin_usage m).2) d) := by
  induction ms with
  | nil =>
    intro processed d h
    simpa using h
  | cons m rest ih =>
    intro processed d h
    have step := detectorInv_step h m
    have := ih (processed ++ [m]) ((d.add_pin_usage m).2) step
    simpa [List.append_assoc] using this

/-- C4.  The conflict detector keeps at most one owner per pin: registering
a usage for a free pin stores it and returns false; registering a usage for
an already-owned pin returns true, appends the pair (existing owner, new
claimant) to the conflict list, and leaves the stored owner unchanged; and
over a whole run, the existing component of every reported conflict pair is
the first claimant of that pin. -/
theorem claim_C4 :
    (∀ (d : PinConflictDetector) (m : PinMapping),
      d.lookup m.pin = none →
        d.add_pin_usage m =
          (false, { d with pin_mappings := d.pin_mappings ++ [(m.pin, m)] }))
    ∧ (∀ (d : PinConflictDetector) (m existing : PinMapping),
      d.lookup m.pin = some existing →
        d.add_pin_usage m =
          (true, { d with conflicts := d.conflicts ++ [(existing, m)] }))
    ∧ (∀ (ms : List PinMapping) (e n : PinMapping),
      (e, n) ∈ (PinConflictDetector.run ms).conflicts →
        firstClaimant ms n.pin = some e) := by
  refine ⟨?_, ?_, ?_⟩
  · intro d m h
    unfold PinConflictDetector.add_pin_usage
    rw [h]
  · intro d m existing h
    unfold PinConflictDetector.add_pin_usage
    rw [h]
  · intro ms e n hmem
    unfold PinConflictDetector.run at hmem
    have := (detectorInv_foldl ms [] {} detectorInv_nil).2 e n hmem
    simpa using this

/-- Witness for C4 at concrete inputs: a fresh registration of PA0 returns
false and stores the owner; a second claim on PA0 returns true, records the
pair, and the run-level invariant names the first claimant. -/
theorem claim_C4_witness :
    (PinConflictDetector.add_pin_usage {} gpioPA0 =
      (false, { pin_mappings := [("PA0", gpioPA0)] }))
    ∧ (PinConflictDetector.add_pin_usage
        { pin_mappings := [("PA0", gpioPA0)] } uartTxPA0 =
      (true, { pin_mappings := [("PA0", gpioPA0)],
               conflicts := [(gpioPA0, uartTxPA0)] }))
    ∧ firstClaimant [gpioPA0, uartTxPA0] uartTxPA0.pin = some gpioPA0 := by
  refine ⟨?_, ?_, ?_⟩
  · exact claim_C4.1 {} gpioPA0 (by decide)
  · exact claim_C4.2.1 { pin_mappings := [("PA0", gpioPA0)] } uartTxPA0
      gpioPA0 (by decide)
  · exact claim_C4.2.2 [gpioPA0, uartTxPA0] gpioPA0 uartTxPA0 (by decide)

/-- C5.  Merging diagnostic result B into A concatenates the message
sequences, A first, and ANDs the validity flags. -/
theorem claim_C5 (A B : ValidationResult) :
    (A.merge B).messages = A.messages ++ B.messages ∧
    (A.merge B).is_valid = (A.is_valid && B.is_valid) := by
  refine ⟨rfl, ?_⟩
  unfold ValidationResult.merge
  cases hB : B.is_valid <;> simp [hB]

/-- C7.  When no capability record matches the configured MCU, the pin
validation pass returns exactly one error, category schema_missing, and
nothing else (in particular no pin_format and no pin_conflict message),
while the capability constraint checker returns exactly one warning with
the same category and stays valid. -/
theorem claim_C7 (find : String → Option MCUSpecs) (config : EmbeddedConfigT)
    (h : find config.board.mcu = none) :
    (SchemaBasedPinValidator.validate find config).messages =
      [errMsg ("No schema found for MCU: " ++ config.board.mcu)
        "board.mcu" "schema_missing"
        "Add appropriate schema file for this MCU"]
    ∧ (SchemaBasedPinValidator.validate find config).is_valid = false
    ∧ (SchemaBasedMCUValidator.validate find config).messages =
      [warnMsg ("No schema found for MCU: " ++ config.board.mcu)
        "board.mcu" "schema_missing"
        "Add appropriate schema file for this MCU"]
    ∧ (SchemaBasedMCUValidator.validate find config).is_valid = true := by
  unfold SchemaBasedPinValidator.validate SchemaBasedMCUValidator.validate
    SchemaBasedMCUValidator.validateMsgs
  rw [h]
  exact ⟨rfl, rfl, rfl, rfl⟩

/-- Witness for C7 on a configuration whose MCU identifier matches no
capability record. -/
theorem claim_C7_witness :
    sampleFind sampleSpecs cfgUnknownMcu.board.mcu = none
    ∧ (SchemaBasedPinValidator.validate (sampleFind sampleSpecs)
        cfgUnknownMcu).messages =
      [errMsg "No schema found for MCU: unknown-chip" "board.mcu"
        "schema_missing" "Add appropriate schema file for this MCU"] := by
  refine ⟨by decide, ?_⟩
  exact (claim_C7 (sampleFind sampleSpecs) cfgUnknownMcu (by decide)).1

/-- Counterexample to C2 as stated: a readable schema document with all
constraint fields absent yields a capability record with an empty port set
and an empty per-port pin map, not the broad A-E port set with 16 pins per
port that the claim promises. -/
theorem claim_C2_counterexample :
    (extract_specs_from_schema emptySchemaDoc).gpio_ports = []
    ∧ (extract_specs_from_schema emptySchemaDoc).max_pins_per_port = []
    ∧ ¬((extract_specs_from_schema emptySchemaDoc).gpio_ports
        = extractFallbackSpecs.gpio_ports) := by
  refine ⟨rfl, rfl, by decide⟩

/-- C2 amended.  For a schema document whose constraint fields are absent,
the extracted capability record carries the scalar fallbacks (maximum clock
200 MHz, voltage 1.8 to 5.5 V, instance limits 6 UART, 3 I2C, 6 SPI and 14
timers, package type Unknown with 0 pins) but an empty port set and an
empty per-port pin map; the broad A-E record is produced only by the
exception branch of the extraction. -/
theorem claim_C2_amended (doc : SchemaDoc)
    (h1 : doc.package_constraints = none)
    (h2 : doc.properties = none)
    (h3 : doc.package_info = none) :
    extract_specs_from_schema doc =
      { gpio_ports := [], max_pins_per_port := [],
        uart_count := 6, i2c_count := 3, spi_count := 6, timer_count := 14,
        max_clock := 200000000, min_voltage := 18/10, max_voltage := 55/10,
        package_type := "Unknown", pin_count := 0 } := by
  unfold extract_specs_from_schema
  rw [h1, h2, h3]
  rfl

/-- Witness for the amended C2 at the all-absent document. -/
theorem claim_C2_amended_witness :
    emptySchemaDoc.package_constraints = none
    ∧ extract_specs_from_schema emptySchemaDoc =
      { gpio_ports := [], max_pins_per_port := [],
        uart_count := 6, i2c_count := 3, spi_count := 6, timer_count := 14,
        max_clock := 200000000, min_voltage := 18/10, max_voltage := 55/10,
        package_type := "Unknown", pin_count := 0 } := by
  exact ⟨rfl, claim_C2_amended emptySchemaDoc rfl rfl rfl⟩

/-- Counterexample to C1 as stated: with a matching capability record whose
timer instance limit is 0 and one enabled timer (every other limit
respected), the capability constraint checker emits no mcu_limits error at
all, although the enabled-timer count exceeds the timer limit. -/
theorem claim_C1_counterexample :
    cfgTimerOverflow.get_enabled_peripheral_count.timers = 1
    ∧ noTimerSpecs.timer_count = 0
    ∧ sampleFind noTimerSpecs cfgTimerOverflow.board.mcu = some noTimerSpecs
    ∧ (SchemaBasedMCUValidator.validate (sampleFind noTimerSpecs)
        cfgTimerOverflow).messages.countP
        (fun m => m.category == "mcu_limits") = 0 := by
  refine ⟨rfl, rfl, rfl, by decide⟩

/-- C1 amended.  With a matching capability record, the capability
constraint checker emits exactly one mcu_limits error per kind among UART,
I2C and SPI whose enabled-instance count exceeds that kind's limit and none
for a kind within its limit; the enabled-timer count is never checked
against the timer limit (no message of the checker is located at timers). -/
theorem claim_C1_amended (find : String → Option MCUSpecs)
    (config : EmbeddedConfigT) (specs : MCUSpecs)
    (h : find config.board.mcu = some specs) :
    ((SchemaBasedMCUValidator.validate find config).messages.countP
      (fun m => m.category == "mcu_limits" && m.location == "uart")
      = if (config.get_enabled_peripheral_count.uart : Int) >
          specs.uart_count then 1 else 0)
    ∧ ((SchemaBasedMCUValidator.validate find config).messages.countP
      (fun m => m.category == "mcu_limits" && m.location == "i2c")
      = if (config.get_enabled_peripheral_count.i2c : Int) >
          specs.i2c_count then 1 else 0)
    ∧ ((SchemaBasedMCUValidator.validate find config).messages.countP
      (fun m => m.category == "mcu_limits" && m.location == "spi")
      = if (config.get_enabled_peripheral_count.spi : Int) >
          specs.spi_count then 1 else 0)
    ∧ (SchemaBasedMCUValidator.validate find config).messages.countP
      (fun m => m.location == "timers") = 0 := by
  unfold SchemaBasedMCUValidator.validate SchemaBasedMCUValidator.validateMsgs
  rw [h]
  simp only [ValidationResult.ofMessages, ValidationResult.addMessages,
    ValidationResult.empty]
  refine ⟨?_, ?_, ?_, ?_⟩ <;>
    split_ifs <;>
    simp_all [List.countP_append, List.countP_cons, errMsg, warnMsg, infoMsg]

/-- Witness for the amended C1 with a capability record found and every
count within its limit. -/
theorem claim_C1_amended_witness :
    sampleFind sampleSpecs cfgTimerOverflow.board.mcu = some sampleSpecs
    ∧ (SchemaBasedMCUValidator.validate (sampleFind sampleSpecs)
        cfgTimerOverflow).messages.countP
      (fun m => m.category == "mcu_limits" && m.location == "uart")
      = (if (cfgTimerOverflow.get_enabled_peripheral_count.uart : Int) >
          sampleSpecs.uart_count then 1 else 0) := by
  exact ⟨rfl,
    (claim_C1_amended (sampleFind sampleSpecs) cfgTimerOverflow sampleSpecs
      rfl).1⟩

/-- countP distributes over flatMap as a sum of per-element counts. -/
theorem countP_flatMap {α β : Type} (p : β → Bool) (f : α → List β) :
    ∀ l : List α, (l.flatMap f).countP p = (l.map fun a => (f a).countP p).sum := by
  intro l
  induction l with
  | nil => rfl
  | cons a t ih =>
    simp [List.flatMap_cons, List.countP_append, ih]

/-- The timer section of the business-rule checker emits no i2c_conflict
message. -/
theorem timers_countP_conflict (config : EmbeddedConfigT) :
    (validate_timer_configs config).countP
      (fun m => m.category == "i2c_conflict") = 0 := by
  unfold validate_timer_configs
  rw [countP_flatMap]
  apply List.sum_eq_zero
  intro x hx
  rw [List.mem_map] at hx
  obtain ⟨e, _, rfl⟩ := hx
  unfold timerEntryMsgs
  split_ifs <;>
    simp [List.countP_append, List.countP_cons, timerDutyMsg,
      timerOutputPinMsg, timerChannelMsg, timerPrescalerMsg, timerPeriodMsg,
      errMsg]

/-- The timer section of the business-rule checker emits no i2c_address
message. -/
theorem timers_countP_address (config : EmbeddedConfigT) :
    (validate_timer_configs config).countP
      (fun m => m.category == "i2c_address") = 0 := by
  unfold validate_timer_configs
  rw [countP_flatMap]
  apply List.sum_eq_zero
  intro x hx
  rw [List.mem_map] at hx
  obtain ⟨e, _, rfl⟩ := hx
  unfold timerEntryMsgs
  split_ifs <;>
    simp [List.countP_append, List.countP_cons, timerDutyMsg,
      timerOutputPinMsg, timerChannelMsg, timerPrescalerMsg, timerPeriodMsg,
      errMsg]

/-- The SPI section of the business-rule checker emits no i2c_conflict
message. -/
theorem spi_countP_conflict (config : EmbeddedConfigT) :
    (validate_spi_configs config).countP
      (fun m => m.category == "i2c_conflict") = 0 := by
  unfold validate_spi_configs
  rw [countP_flatMap]
  apply List.sum_eq_zero
  intro x hx
  rw [List.mem_map] at hx
  obtain ⟨e, _, rfl⟩ := hx
  unfold spiEntryMsgs
  split_ifs <;>
    simp [List.countP_append, List.countP_cons, errMsg, warnMsg]

/-- The SPI section of the business-rule checker emits no i2c_address
message. -/
theorem spi_countP_address (config : EmbeddedConfigT) :
    (validate_spi_configs config).countP
      (fun m => m.category == "i2c_address") = 0 := by
  unfold validate_spi_configs
  rw [countP_flatMap]
  apply List.sum_eq_zero
  intro x hx
  rw [List.mem_map] at hx
  obtain ⟨e, _, rfl⟩ := hx
  unfold spiEntryMsgs
  split_ifs <;>
    simp [List.countP_append, List.countP_cons, errMsg, warnMsg]

/-- The UART section of the business-rule checker emits no i2c_conflict
message. -/
theorem uart_countP_conflict (config : EmbeddedConfigT) :
    (validate_uart_configs config).countP
      (fun m => m.category == "i2c_conflict") = 0 := by
  unfold validate_uart_configs
  rw [countP_flatMap]
  apply List.sum_eq_zero
  intro x hx
  rw [List.mem_map] at hx
  obtain ⟨e, _, rfl⟩ := hx
  unfold uartEntryMsgs
  split_ifs <;> simp [List.countP_cons, warnMsg]

/-- The UART section of the business-rule checker emits no i2c_address
message. -/
theorem uart_countP_address (config : EmbeddedConfigT) :
    (validate_uart_configs config).countP
      (fun m => m.category == "i2c_address") = 0 := by
  unfold validate_uart_configs
  rw [countP_flatMap]
  apply List.sum_eq_zero
  intro x hx
  rw [List.mem_map] at hx
  obtain ⟨e, _, rfl⟩ := hx
  unfold uartEntryMsgs
  split_ifs <;> simp [List.countP_cons, warnMsg]

/-- On one bus, the device loop emits exactly one i2c_conflict error per
device whose address already occurred earlier (continuing from any set of
already-seen addresses). -/
theorem i2cDeviceLoop_conflict_count (nm : String) :
    ∀ (ds : List I2CDevice) (as : List Int),
      (i2cDeviceLoop nm ds as).countP (fun m => m.category == "i2c_conflict")
        = dupOccurrences ds as := by
  intro ds
  induction ds with
  | nil => intro as; rfl
  | cons d rest ih =>
    intro as
    unfold i2cDeviceLoop dupOccurrences
    by_cases hdup : d.address ∈ as <;>
      by_cases hrange : (d.address < 0x08 ∨ d.address > 0x77) <;>
        simp [hdup, hrange, ih, List.countP_append, List.countP_cons,
          i2cConflictMsg, i2cAddressMsg, errMsg, Nat.add_comm]

/-- On one bus, the device loop emits exactly one i2c_address error per
device whose address lies outside the valid window, duplicated or not. -/
theorem i2cDeviceLoop_address_count (nm : String) :
    ∀ (ds : List I2CDevice) (as : List Int),
      (i2cDeviceLoop nm ds as).countP (fun m => m.category == "i2c_address")
        = ds.countP addressOutOfRange := by
  intro ds
  induction ds with
  | nil => intro as; rfl
  | cons d rest ih =>
    intro as
    unfold i2cDeviceLoop
    by_cases hdup : d.address ∈ as <;>
      by_cases hrange : (d.address < 0x08 ∨ d.address > 0x77) <;>
        simp [hdup, hrange, ih, List.countP_append, List.countP_cons,
          i2cConflictMsg, i2cAddressMsg, errMsg, addressOutOfRange]

/-- The i2c section over all buses, counted per enabled bus. -/
theorem i2c_section_conflict_count :
    ∀ l : List (String × I2CConfig),
      (l.flatMap fun e =>
        if e.2.enabled then i2cDeviceLoop e.1 e.2.devices [] else []).countP
          (fun m => m.category == "i2c_conflict")
        = (l.map fun e =>
            if e.2.enabled then dupOccurrences e.2.devices [] else 0).sum := by
  intro l
  induction l with
  | nil => rfl
  | cons e t ih =>
    by_cases h : e.2.enabled <;>
      simp [h, List.flatMap_cons, List.countP_append, ih,
        i2cDeviceLoop_conflict_count]

/-- The i2c section over all buses, out-of-range errors per enabled bus. -/
theorem i2c_section_address_count :
    ∀ l : List (String × I2CConfig),
      (l.flatMap fun e =>
        if e.2.enabled then i2cDeviceLoop e.1 e.2.devices [] else []).countP
          (fun m => m.category == "i2c_address")
        = (l.map fun e =>
            if e.2.enabled then e.2.devices.countP addressOutOfRange
            else 0).sum := by
  intro l
  induction l with
  | nil => rfl
  | cons e t ih =>
    by_cases h : e.2.enabled <;>
      simp [h, List.flatMap_cons, List.countP_append, ih,
        i2cDeviceLoop_address_count]

/-- The messages of the business-rule checker are the four sections in
source order. -/
theorem peripheral_validate_messages (config : EmbeddedConfigT) :
    (PeripheralValidator.validate config).messages
      = validate_i2c_addresses config ++ validate_timer_configs config
        ++ validate_spi_configs config ++ validate_uart_configs config := by
  simp [PeripheralValidator.validate, ValidationResult.ofMessages,
    ValidationResult.addMessages, ValidationResult.empty]

/-- Counterexample to C3 as stated: one enabled bus with three devices
sharing the single repeated address 0x10 produces two i2c_conflict errors,
not exactly one per repeated address value. -/
theorem claim_C3_counterexample :
    tripleBus.enabled = true
    ∧ tripleBus.devices.map I2CDevice.address = [0x10, 0x10, 0x10]
    ∧ (PeripheralValidator.validate cfgTripleBus).messages.countP
        (fun m => m.category == "i2c_conflict") = 2
    ∧ ¬((PeripheralValidator.validate cfgTripleBus).messages.countP
        (fun m => m.category == "i2c_conflict") = 1) := by
  refine ⟨rfl, rfl, by decide, by decide⟩

/-- C3 amended.  Over the whole business-rule checker, the number of
i2c_conflict errors is the number of devices on enabled buses whose address
already occurred earlier on the same bus (so an address occurring k >= 2
times on a bus yields k - 1 errors, in particular one error, not one per
colliding pair, for a doubly-used address), and the number of i2c_address
errors is the number of devices on enabled buses whose address lies outside
0x08 to 0x77, regardless of duplication. -/
theorem claim_C3_amended (config : EmbeddedConfigT) :
    ((PeripheralValidator.validate config).messages.countP
      (fun m => m.category == "i2c_conflict")
      = (config.i2c.map fun e =>
          if e.2.enabled then dupOccurrences e.2.devices [] else 0).sum)
    ∧ ((PeripheralValidator.validate config).messages.countP
      (fun m => m.category == "i2c_address")
      = (config.i2c.map fun e =>
          if e.2.enabled then e.2.devices.countP addressOutOfRange
          else 0).sum) := by
  constructor
  · rw [peripheral_validate_messages]
    simp only [List.countP_append]
    rw [timers_countP_conflict, spi_countP_conflict, uart_countP_conflict]
    simp only [Nat.add_zero]
    unfold validate_i2c_addresses
    exact i2c_section_conflict_count config.i2c
  · rw [peripheral_validate_messages]
    simp only [List.countP_append]
    rw [timers_countP_address, spi_countP_address, uart_countP_address]
    simp only [Nat.add_zero]
    unfold validate_i2c_addresses
    exact i2c_section_address_count config.i2c

/-- Left cancellation for string append, via the underlying char lists. -/
theorem string_append_cancel_left {a b c : String} (h : a ++ b = a ++ c) :
    b = c := by
  rw [String.ext_iff] at h ⊢
  rw [String.data_append, String.data_append] at h
  exact List.append_cancel_left h

/-- The duty-cycle message differs from the output-pin message of the same
timer. -/
theorem dutyMsg_ne_outputMsg (nm : String) :
    timerDutyMsg nm ≠ timerOutputPinMsg nm := by
  intro h
  have hmsg := congrArg ValidationMessage.message h
  simp only [timerDutyMsg, timerOutputPinMsg, errMsg] at hmsg
  have := string_append_cancel_left hmsg
  exact absurd this (by decide)

/-- The duty-cycle message differs from the channel message of the same
timer. -/
theorem dutyMsg_ne_channelMsg (nm : String) :
    timerDutyMsg nm ≠ timerChannelMsg nm := by
  intro h
  have hmsg := congrArg ValidationMessage.message h
  simp only [timerDutyMsg, timerChannelMsg, errMsg] at hmsg
  have := string_append_cancel_left hmsg
  exact absurd this (by decide)

/-- The duty-cycle message differs from the prescaler message of the same
timer, whatever the prescaler value renders to. -/
theorem dutyMsg_ne_prescalerMsg (nm : String) (v : Int) :
    timerDutyMsg nm ≠ timerPrescalerMsg nm v := by
  intro h
  have hmsg := congrArg ValidationMessage.message h
  simp only [timerDutyMsg, timerPrescalerMsg, errMsg] at hmsg
  rw [String.append_assoc ("Timer " ++ nm), String.append_assoc ("Timer " ++ nm)]
    at hmsg
  have h2 := string_append_cancel_left hmsg
  have h3 := congrArg String.data h2
  simp only [String.data_append] at h3
  rw [List.append_assoc] at h3
  have hpre : (": Invalid prescaler value ").data
      <+: (": PWM mode requires duty_cycle between 0-100").data := ⟨_, h3.symm⟩
  exact absurd hpre (by decide)

/-- The duty-cycle message differs from the period message of the same
timer, whatever the period value renders to. -/
theorem dutyMsg_ne_periodMsg (nm : String) (v : Int) :
    timerDutyMsg nm ≠ timerPeriodMsg nm v := by
  intro h
  have hmsg := congrArg ValidationMessage.message h
  simp only [timerDutyMsg, timerPeriodMsg, errMsg] at hmsg
  rw [String.append_assoc ("Timer " ++ nm), String.append_assoc ("Timer " ++ nm)]
    at hmsg
  have h2 := string_append_cancel_left hmsg
  have h3 := congrArg String.data h2
  simp only [String.data_append] at h3
  rw [List.append_assoc] at h3
  have hpre : (": Invalid period value ").data
      <+: (": PWM mode requires duty_cycle between 0-100").data := ⟨_, h3.symm⟩
  exact absurd hpre (by decide)

/-- The boolean duty-cycle test of the source matches the arithmetic
condition of the claim. -/
theorem dutyCycleInvalid_iff (t : TimerConfig) :
    dutyCycleInvalid t = true ↔
      (t.duty_cycle = none ∨
        ∃ d, t.duty_cycle = some d ∧ (d < 0 ∨ 100 < d)) := by
  unfold dutyCycleInvalid
  cases hd : t.duty_cycle with
  | none => simp
  | some d =>
    by_cases h : 0 ≤ d ∧ d ≤ 100
    · simp [h]
    · simp [h]
      omega

/-- C8.  For every enabled timer entry in pwm mode, the business-rule
checker emits the duty-cycle timer_config error for that timer exactly when
the duty cycle is missing or outside 0 to 100; whenever that condition
holds the error also appears in the full checker result. -/
theorem claim_C8 (config : EmbeddedConfigT) (nm : String) (t : TimerConfig)
    (hmem : (nm, t) ∈ config.timers) (hen : t.enabled = true)
    (hpwm : t.mode = "pwm") :
    (timerDutyMsg nm ∈ timerEntryMsgs nm t ↔
      (t.duty_cycle = none ∨
        ∃ d, t.duty_cycle = some d ∧ (d < 0 ∨ 100 < d)))
    ∧ ((t.duty_cycle = none ∨
        ∃ d, t.duty_cycle = some d ∧ (d < 0 ∨ 100 < d)) →
      timerDutyMsg nm ∈ (PeripheralValidator.validate config).messages) := by
  have hentry : timerDutyMsg nm ∈ timerEntryMsgs nm t ↔
      dutyCycleInvalid t = true := by
    unfold timerEntryMsgs
    by_cases h1 : dutyCycleInvalid t = true <;>
      by_cases h2 : pyTruthy t.output_pin = true <;>
        by_cases h3 : channelInvalid t = true <;>
          by_cases h4 : (t.prescaler ≤ 0 ∨ t.prescaler > 65536) <;>
            by_cases h5 : (t.period ≤ 0 ∨ t.period > 65536) <;>
              simp [hen, hpwm, h1, h2, h3, h4, h5,
                dutyMsg_ne_outputMsg nm, dutyMsg_ne_channelMsg nm,
                dutyMsg_ne_prescalerMsg nm t.prescaler,
                dutyMsg_ne_periodMsg nm t.period]
  constructor
  · rw [hentry]
    exact dutyCycleInvalid_iff t
  · intro hcond
    have hm : timerDutyMsg nm ∈ timerEntryMsgs nm t :=
      hentry.mpr ((dutyCycleInvalid_iff t).mpr hcond)
    have hflat : timerDutyMsg nm ∈ validate_timer_configs config := by
      unfold validate_timer_configs
      exact List.mem_flatMap.mpr ⟨(nm, t), hmem, hm⟩
    rw [peripheral_validate_messages]
    exact List.mem_append_left _ (List.mem_append_left _
      (List.mem_append_right _ hflat))

/-- Witness for C8: duty cycle 101 produces the duty-cycle error in the
full checker result; duty cycles 0 and 100 do not produce it for their
timer. -/
theorem claim_C8_witness :
    timerDutyMsg "tim2" ∈
      (PeripheralValidator.validate (cfgPwm (some 101))).messages
    ∧ timerDutyMsg "tim2" ∉ timerEntryMsgs "tim2" (pwmTimer (some 0))
    ∧ timerDutyMsg "tim2" ∉ timerEntryMsgs "tim2" (pwmTimer (some 100)) := by
  refine ⟨?_, ?_, ?_⟩
  · exact (claim_C8 (cfgPwm (some 101)) "tim2" (pwmTimer (some 101))
      (by simp [cfgPwm]) rfl rfl).2 (Or.inr ⟨101, rfl, by omega⟩)
  · intro hm
    have hc := (claim_C8 (cfgPwm (some 0)) "tim2" (pwmTimer (some 0))
      (by simp [cfgPwm]) rfl rfl).1.mp hm
    rcases hc with h | ⟨d, hd, hlt⟩
    · exact Option.noConfusion h
    · have : d = (0 : Int) := by
        have := Option.some.inj hd
        omega
      omega
  · intro hm
    have hc := (claim_C8 (cfgPwm (some 100)) "tim2" (pwmTimer (some 100))
      (by simp [cfgPwm]) rfl rfl).1.mp hm
    rcases hc with h | ⟨d, hd, hlt⟩
    · exact Option.noConfusion h
    · have : d = (100 : Int) := by
        have := Option.some.inj hd
        omega
      omega

/-- A run over checkers that all return normally merges their messages in
declaration order onto the running result. -/
theorem runCheckers_ok_messages :
    ∀ (l : List (String × Except String ValidationResult))
      (init : ValidationResult),
      (∀ p ∈ l, ∃ r, p.2 = .ok r) →
      (runCheckers init l).messages = init.messages ++ l.flatMap okMsgs := by
  intro l
  induction l with
  | nil =>
    intro init _
    simp [runCheckers]
  | cons p t ih =>
    intro init h
    obtain ⟨nm, pe⟩ := p
    obtain ⟨r, hr⟩ := h (nm, pe) (List.mem_cons_self _ _)
    subst hr
    rw [show runCheckers init ((nm, Except.ok r) :: t)
        = runCheckers (init.merge r) t from rfl]
    rw [ih (init.merge r) (fun q hq => h q (List.mem_cons_of_mem _ hq))]
    simp [ValidationResult.merge, okMsgs, List.flatMap_cons]

/-- Splitting a checker run at any point. -/
theorem runCheckers_append (l₁ l₂ : List (String × Except String ValidationResult)) :
    ∀ init, runCheckers init (l₁ ++ l₂)
      = runCheckers (runCheckers init l₁) l₂ := by
  induction l₁ with
  | nil => intro init; rfl
  | cons p t ih =>
    intro init
    obtain ⟨nm, pe⟩ := p
    cases pe with
    | ok r => exact ih (init.merge r)
    | error e => exact ih _

/-- C6.  If during orchestration exactly one checker raises and the
results of the others carry no validator_error message, the final result is
the concatenation, in checker-declaration order, of the earlier checkers'
messages, one error naming the failing checker with category
validator_error, and the later checkers' messages; in particular exactly
one validator_error message appears. -/
theorem claim_C6 (pre post : List (String × Except String ValidationResult))
    (nm e : String)
    (hpre : ∀ p ∈ pre, ∃ r, p.2 = .ok r)
    (hpost : ∀ p ∈ post, ∃ r, p.2 = .ok r)
    (hnv : ((pre ++ post).flatMap okMsgs).countP isValidatorError = 0) :
    (runCheckers {} (pre ++ (nm, .error e) :: post)).messages
      = pre.flatMap okMsgs ++ [validatorErrorMsg nm e] ++ post.flatMap okMsgs
    ∧ (runCheckers {} (pre ++ (nm, .error e) :: post)).messages.countP
        isValidatorError = 1
    ∧ (validatorErrorMsg nm e).message
        = "Validation error in " ++ nm ++ ": " ++ e
    ∧ (validatorErrorMsg nm e).level = .error := by
  have hmain : (runCheckers {} (pre ++ (nm, .error e) :: post)).messages
      = pre.flatMap okMsgs ++ [validatorErrorMsg nm e]
        ++ post.flatMap okMsgs := by
    rw [runCheckers_append]
    have h1 : (runCheckers {} pre).messages = pre.flatMap okMsgs := by
      rw [runCheckers_ok_messages pre {} hpre]
      rfl
    rw [show runCheckers (runCheckers {} pre) ((nm, Except.error e) :: post)
        = runCheckers ((runCheckers {} pre).add_error
            ("Validation error in " ++ nm ++ ": " ++ e)
            "" "validator_error" "") post from rfl]
    rw [runCheckers_ok_messages post _ hpost]
    rw [show ((runCheckers {} pre).add_error
        ("Validation error in " ++ nm ++ ": " ++ e)
        "" "validator_error" "").messages
      = (runCheckers {} pre).messages ++ [validatorErrorMsg nm e] from rfl]
    rw [h1]
  refine ⟨hmain, ?_, rfl, rfl⟩
  rw [hmain]
  rw [List.countP_append, List.countP_append]
  rw [List.flatMap_append, List.countP_append] at hnv
  have hone : List.countP isValidatorError [validatorErrorMsg nm e] = 1 := by
    simp [validatorErrorMsg, errMsg, isValidatorError, List.countP_cons]
  omega

/-- Witness for C6: two well-behaved checkers around one failing checker. -/
theorem claim_C6_witness :
    (runCheckers {}
      [("Schema-Based Pin Validation", .ok resultA),
       ("Schema-Based MCU Validation", .error "boom"),
       ("Peripheral Validation", .ok ValidationResult.empty)]).messages
      = [infoMsg "a" "" "note" ""]
        ++ [validatorErrorMsg "Schema-Based MCU Validation" "boom"] ++ []
    ∧ (runCheckers {}
      [("Schema-Based Pin Validation", .ok resultA),
       ("Schema-Based MCU Validation", .error "boom"),
       ("Peripheral Validation", .ok ValidationResult.empty)]).messages.countP
        isValidatorError = 1 := by
  have h := claim_C6 [("Schema-Based Pin Validation", .ok resultA)]
    [("Peripheral Validation", .ok ValidationResult.empty)]
    "Schema-Based MCU Validation" "boom"
    (by intro p hp; simp at hp; exact ⟨resultA, by rw [hp]⟩)
    (by intro p hp; simp at hp; exact ⟨ValidationResult.empty, by rw [hp]⟩)
    (by decide)
  exact ⟨h.1, h.2.1⟩

/-- C9.  The full orchestrated validation leaves the configuration
unchanged, field by field: the structural schema checker receives the
transformed asdict copy while the configuration itself passes through the
run untouched. -/
theorem claim_C9 (find : String → Option MCUSpecs)
    (sv : ConfigDict → Except String ValidationResult)
    (config : EmbeddedConfigT) :
    (ConfigValidator.validateWithState find sv config).2.board = config.board
    ∧ (ConfigValidator.validateWithState find sv config).2.gpio = config.gpio
    ∧ (ConfigValidator.validateWithState find sv config).2.uart = config.uart
    ∧ (ConfigValidator.validateWithState find sv config).2.i2c = config.i2c
    ∧ (ConfigValidator.validateWithState find sv config).2.timers
        = config.timers
    ∧ (ConfigValidator.validateWithState find sv config).2.spi = config.spi
    ∧ (ConfigValidator.validateWithState find sv config).2 = config
    ∧ SchemaValidator.validate sv config
        = sv (transformDeviceTypes (asdict config)) :=
  ⟨rfl, rfl, rfl, rfl, rfl, rfl, rfl, rfl⟩

/-- Equation form of add_pin_usage on an already-owned pin. -/
theorem add_pin_usage_of_some {d : PinConflictDetector} {m ex : PinMapping}
    (hl : d.lookup m.pin = some ex) :
    d.add_pin_usage m
      = (true, { d with conflicts := d.conflicts ++ [(ex, m)] }) := by
  unfold PinConflictDetector.add_pin_usage
  rw [hl]

/-- Equation form of add_pin_usage on a free pin. -/
theorem add_pin_usage_of_none {d : PinConflictDetector} {m : PinMapping}
    (hl : d.lookup m.pin = none) :
    d.add_pin_usage m
      = (false,
          { d with pin_mappings := d.pin_mappings ++ [(m.pin, m)] }) := by
  unfold PinConflictDetector.add_pin_usage
  rw [hl]

/-- One registration never removes conflict pairs. -/
theorem add_pin_usage_conflicts_mono (d : PinConflictDetector)
    (m : PinMapping) :
    ∃ t, (d.add_pin_usage m).2.conflicts = d.conflicts ++ t := by
  cases hl : d.lookup m.pin with
  | some ex =>
    refine ⟨[(ex, m)], ?_⟩
    rw [add_pin_usage_of_some hl]
  | none =>
    refine ⟨[], ?_⟩
    rw [add_pin_usage_of_none hl]
    exact (List.append_nil _).symm

/-- One registration never removes a pin from the usage map. -/
theorem add_pin_usage_keeps (d : PinConflictDetector) (m : PinMapping)
    (p : String) (h : (d.lookup p).isSome = true) :
    ((d.add_pin_usage m).2.lookup p).isSome = true := by
  cases hl : d.lookup m.pin with
  | some ex =>
    rw [add_pin_usage_of_some hl]
    exact h
  | none =>
    rw [add_pin_usage_of_none hl]
    unfold PinConflictDetector.lookup
    rw [show ({ d with pin_mappings := d.pin_mappings ++ [(m.pin, m)] } :
        PinConflictDetector).pin_mappings
      = d.pin_mappings ++ [(m.pin, m)] from rfl]
    rw [List.find?_append]
    unfold PinConflictDetector.lookup at h
    cases hq : d.pin_mappings.find? fun kv => kv.1 == p with
    | some kv => simp [Option.or]
    | none =>
      rw [hq] at h
      simp at h

/-- After registering a usage, its pin is in the usage map. -/
theorem add_pin_usage_self (d : PinConflictDetector) (m : PinMapping) :
    ((d.add_pin_usage m).2.lookup m.pin).isSome = true := by
  cases hl : d.lookup m.pin with
  | some ex =>
    rw [add_pin_usage_of_some hl]
    rw [show ((true, { d with conflicts := d.conflicts ++ [(ex, m)] }) :
        Bool × PinConflictDetector).2.lookup m.pin = d.lookup m.pin from rfl]
    rw [hl]
    rfl
  | none =>
    rw [add_pin_usage_of_none hl]
    unfold PinConflictDetector.lookup
    rw [show ({ d with pin_mappings := d.pin_mappings ++ [(m.pin, m)] } :
        PinConflictDetector).pin_mappings
      = d.pin_mappings ++ [(m.pin, m)] from rfl]
    rw [List.find?_append]
    unfold PinConflictDetector.lookup at hl
    cases hq : d.pin_mappings.find? fun kv => kv.1 == m.pin with
    | some kv =>
      rw [hq] at hl
      simp at hl
    | none =>
      simp [List.find?_cons, Option.or]

/-- Registering a usage for an already-owned pin extends the conflict
list, so it becomes (or stays) nonempty. -/
theorem add_pin_usage_conflict_nonempty (d : PinConflictDetector)
    (m : PinMapping) (h : (d.lookup m.pin).isSome = true) :
    (d.add_pin_usage m).2.conflicts ≠ [] := by
  cases hl : d.lookup m.pin with
  | none =>
    rw [hl] at h
    cases h
  | some ex =>
    rw [add_pin_usage_of_some hl]
    simp

/-- StepMono is stable under folding over any list. -/
theorem foldl_mono {γ : Type} {f : CollectState → γ → CollectState}
    (hf : StepMono f) :
    StepMono (fun (st : CollectState) (l : List γ) => l.foldl f st) := by
  intro st l
  induction l generalizing st with
  | nil => exact ⟨⟨[], (List.append_nil _).symm⟩, fun p hp => hp⟩
  | cons x t ih =>
    obtain ⟨⟨t1, ht1⟩, hk1⟩ := hf st x
    obtain ⟨⟨t2, ht2⟩, hk2⟩ := ih (f st x)
    refine ⟨⟨t1 ++ t2, ?_⟩, fun p hp => hk2 p (hk1 p hp)⟩
    show ((x :: t).foldl f st).detector.conflicts = _
    rw [List.foldl_cons, ht2, ht1, List.append_assoc]

/-- The UART pin step is monotone. -/
theorem stepMono_collectUartPin (mcu_specs : MCUSpecs) (nm : String)
    (u : UARTConfig) : StepMono (collectUartPin mcu_specs nm u) := by
  intro st x
  unfold collectUartPin
  split_ifs <;>
    first
      | exact ⟨⟨[], (List.append_nil _).symm⟩, fun p hp => hp⟩
      | exact ⟨add_pin_usage_conflicts_mono _ _,
          fun p hp => add_pin_usage_keeps _ _ p hp⟩

/-- The I2C pin step is monotone. -/
theorem stepMono_collectI2CPin (mcu_specs : MCUSpecs) (nm : String)
    (i2c : I2CConfig) : StepMono (collectI2CPin mcu_specs nm i2c) := by
  intro st x
  unfold collectI2CPin
  split_ifs <;>
    first
      | exact ⟨⟨[], (List.append_nil _).symm⟩, fun p hp => hp⟩
      | exact ⟨add_pin_usage_conflicts_mono _ _,
          fun p hp => add_pin_usage_keeps _ _ p hp⟩

/-- The SPI pin step is monotone. -/
theorem stepMono_collectSpiPin (mcu_specs : MCUSpecs) (nm : String)
    (spi : SPIConfig) : StepMono (collectSpiPin mcu_specs nm spi) := by
  intro st x
  unfold collectSpiPin
  split_ifs <;>
    first
      | exact ⟨⟨[], (List.append_nil _).symm⟩, fun p hp => hp⟩
      | exact ⟨add_pin_usage_conflicts_mono _ _,
          fun p hp => add_pin_usage_keeps _ _ p hp⟩

/-- The timer entry step is monotone. -/
theorem stepMono_collectTimerEntry (mcu_specs : MCUSpecs) :
    StepMono (collectTimerEntry mcu_specs) := by
  intro st x
  unfold collectTimerEntry
  split_ifs <;>
    first
      | exact ⟨⟨[], (List.append_nil _).symm⟩, fun p hp => hp⟩
      | exact ⟨add_pin_usage_conflicts_mono _ _,
          fun p hp => add_pin_usage_keeps _ _ p hp⟩

/-- The UART entry step is monotone. -/
theorem stepMono_collectUartEntry (mcu_specs : MCUSpecs) :
    StepMono (collectUartEntry mcu_specs) := by
  intro st e
  unfold collectUartEntry
  split_ifs
  · exact ⟨⟨[], (List.append_nil _).symm⟩, fun p hp => hp⟩
  · exact foldl_mono (stepMono_collectUartPin mcu_specs e.1 e.2) st _

/-- The I2C entry step is monotone. -/
theorem stepMono_collectI2CEntry (mcu_specs : MCUSpecs) :
    StepMono (collectI2CEntry mcu_specs) := by
  intro st e
  unfold collectI2CEntry
  split_ifs
  · exact ⟨⟨[], (List.append_nil _).symm⟩, fun p hp => hp⟩
  · exact foldl_mono (stepMono_collectI2CPin mcu_specs e.1 e.2) st _

/-- The SPI entry step is monotone. -/
theorem stepMono_collectSpiEntry (mcu_specs : MCUSpecs) :
    StepMono (collectSpiEntry mcu_specs) := by
  intro st e
  unfold collectSpiEntry
  split_ifs
  · exact ⟨⟨[], (List.append_nil _).symm⟩, fun p hp => hp⟩
  · exact foldl_mono (stepMono_collectSpiPin mcu_specs e.1 e.2) st _

/-- Collecting a UART whose TX and RX roles name the same nonempty,
capability-valid pin records a conflict, from any starting state. -/
theorem collectUartEntry_conflict (mcu_specs : MCUSpecs) (st : CollectState)
    (nm : String) (u : UARTConfig) (hen : u.enabled = true)
    (heq : u.tx_pin = u.rx_pin) (hne : u.tx_pin ≠ "")
    (hv : validatePinAgainstSchema u.tx_pin mcu_specs = true) :
    (collectUartEntry mcu_specs st (nm, u)).detector.conflicts ≠ [] := by
  have hne2 : u.rx_pin ≠ "" := by rw [← heq]; exact hne
  have hv2 : validatePinAgainstSchema u.rx_pin mcu_specs = true := by
    rw [← heq]; exact hv
  have h1 : ((collectUartPin mcu_specs nm u st
      ("TX", u.tx_pin)).detector.lookup u.rx_pin).isSome = true := by
    unfold collectUartPin
    rw [if_neg (by simp [hne]), if_neg (by simp [hv])]
    rw [← heq]
    exact add_pin_usage_self st.detector _
  have key : ∀ st1 : CollectState,
      (st1.detector.lookup u.rx_pin).isSome = true →
      (collectUartPin mcu_specs nm u st1
        ("RX", u.rx_pin)).detector.conflicts ≠ [] := by
    intro st1 hs
    unfold collectUartPin
    rw [if_neg (by simp [hne2]), if_neg (by simp [hv2])]
    exact add_pin_usage_conflict_nonempty st1.detector _ hs
  unfold collectUartEntry
  rw [if_neg (by simp [hen])]
  simp only [List.foldl_cons, List.foldl_nil]
  exact key _ h1

/-- The UART collection stage ends with a nonempty conflict list whenever
some enabled UART entry claims one valid pin for both roles. -/
theorem collect_uart_pins_conflict (mcu_specs : MCUSpecs)
    (config : EmbeddedConfigT) (st0 : CollectState) (nm : String)
    (u : UARTConfig) (hmem : (nm, u) ∈ config.uart) (hen : u.enabled = true)
    (heq : u.tx_pin = u.rx_pin) (hne : u.tx_pin ≠ "")
    (hv : validatePinAgainstSchema u.tx_pin mcu_specs = true) :
    (collect_uart_pins mcu_specs config st0).detector.conflicts ≠ [] := by
  obtain ⟨l1, l2, hsplit⟩ := List.append_of_mem hmem
  unfold collect_uart_pins
  rw [hsplit, List.foldl_append, List.foldl_cons]
  have hc := collectUartEntry_conflict mcu_specs
    (l1.foldl (collectUartEntry mcu_specs) st0) nm u hen heq hne hv
  obtain ⟨⟨t, ht⟩, _⟩ := foldl_mono (stepMono_collectUartEntry mcu_specs)
    (collectUartEntry mcu_specs (l1.foldl (collectUartEntry mcu_specs) st0)
      (nm, u)) l2
  rw [ht]
  intro hnil
  exact hc (List.append_eq_nil.mp hnil).1

/-- The whole collector pipeline ends with a nonempty conflict list in the
same situation. -/
theorem pinCollectAll_conflict (mcu_specs : MCUSpecs)
    (config : EmbeddedConfigT) (nm : String) (u : UARTConfig)
    (hmem : (nm, u) ∈ config.uart) (hen : u.enabled = true)
    (heq : u.tx_pin = u.rx_pin) (hne : u.tx_pin ≠ "")
    (hv : validatePinAgainstSchema u.tx_pin mcu_specs = true) :
    (pinCollectAll mcu_specs config).detector.conflicts ≠ [] := by
  unfold pinCollectAll collect_i2c_pins collect_spi_pins collect_timer_pins
  have h1 := collect_uart_pins_conflict mcu_specs config
    (collect_gpio_pins mcu_specs config {}) nm u hmem hen heq hne hv
  obtain ⟨⟨t1, ht1⟩, _⟩ := foldl_mono (stepMono_collectI2CEntry mcu_specs)
    (collect_uart_pins mcu_specs config
      (collect_gpio_pins mcu_specs config {})) config.i2c
  obtain ⟨⟨t2, ht2⟩, _⟩ := foldl_mono (stepMono_collectSpiEntry mcu_specs)
    (config.i2c.foldl (collectI2CEntry mcu_specs)
      (collect_uart_pins mcu_specs config
        (collect_gpio_pins mcu_specs config {}))) config.spi
  obtain ⟨⟨t3, ht3⟩, _⟩ := foldl_mono (stepMono_collectTimerEntry mcu_specs)
    (config.spi.foldl (collectSpiEntry mcu_specs)
      (config.i2c.foldl (collectI2CEntry mcu_specs)
        (collect_uart_pins mcu_specs config
          (collect_gpio_pins mcu_specs config {})))) config.timers
  rw [ht3, ht2, ht1]
  intro hnil
  simp only [List.append_eq_nil] at hnil
  exact h1 hnil.1.1.1

/-- C10.  A single enabled peripheral claiming the same capability-valid
pin for two of its own roles, here a UART whose TX and RX pins coincide,
always yields a pin_conflict error: the conflict detector does not require
distinct peripherals. -/
theorem claim_C10 (find : String → Option MCUSpecs)
    (config : EmbeddedConfigT) (specs : MCUSpecs) (nm : String)
    (u : UARTConfig) (hfind : find config.board.mcu = some specs)
    (hmem : (nm, u) ∈ config.uart) (hen : u.enabled = true)
    (heq : u.tx_pin = u.rx_pin) (hne : u.tx_pin ≠ "")
    (hv : validatePinAgainstSchema u.tx_pin specs = true) :
    ∃ m ∈ (SchemaBasedPinValidator.validate find config).messages,
      m.category = "pin_conflict" := by
  have hmsgs : (SchemaBasedPinValidator.validate find config).messages
      = (pinCollectAll specs config).msgs
        ++ (pinCollectAll specs config).detector.conflicts.map conflictMsg := by
    unfold SchemaBasedPinValidator.validate
    rw [hfind]
    rfl
  rw [hmsgs]
  have hconf := pinCollectAll_conflict specs config nm u hmem hen heq hne hv
  obtain ⟨c, rest, hc⟩ := List.exists_cons_of_ne_nil hconf
  refine ⟨conflictMsg c, ?_, rfl⟩
  rw [hc]
  exact List.mem_append_right _
    (List.mem_map_of_mem _ (List.mem_cons_self _ _))

/-- Witness for C10: an enabled UART with TX = RX = PA9 on a known MCU
produces a pin_conflict error. -/
theorem claim_C10_witness :
    ∃ m ∈ (SchemaBasedPinValidator.validate (sampleFind sampleSpecs)
      cfgUartSamePin).messages, m.category = "pin_conflict" := by
  exact claim_C10 (sampleFind sampleSpecs) cfgUartSamePin sampleSpecs
    "uart1" uartSamePin rfl (by simp [cfgUartSamePin]) rfl rfl
    (by decide) (by decide)

end Theorems

end EmbeddedConfig
